import Mathlib

/-!
Shallow embedding of `komle/soap_client.py`, a thin WITSML Store SOAP
client.  External libraries (the pyxb-generated `witsml` bindings, the
suds SOAP toolkit and the `requests` HTTP library) are modelled as
parameters: the getters are parameterised over an `ObjectBinding`
bundling the binding module's version string, collection serialisation
(`toxml`) and deserialisation (`CreateFromDocument`, which may fail with
a pyxb schema-validation error `ε`), and the transport is parameterised
over the `requests.post` function.  Exceptions are modelled with
`Except`; every getter also returns the list of remote-procedure calls
it performed, so that call-shape and call-count properties can be
stated.
-/

namespace Komle

/-- The suds reply object for `WMLS_GetFromStore`: a numeric result
code, a supplementary message and the output XML document. -/
structure Reply where
  Result : Int
  SuppMsgOut : String
  XMLout : String
  deriving DecidableEq, Repr

/-- `StoreException(reply)`: carries a message made of the result code,
a colon and a space, then the supplementary message, plus the reply
itself. -/
structure StoreExceptionData where
  message : String
  reply : Reply
  deriving DecidableEq, Repr

/-- `StoreException.__init__`: the message is built from the result code
and the supplementary message. -/
def StoreException_init (reply : Reply) : StoreExceptionData :=
  { message := toString reply.Result ++ ": " ++ reply.SuppMsgOut
    reply := reply }

/-- An error escaping a getter: either the client's own `StoreException`
or a propagated pyxb schema-validation error from
`witsml.CreateFromDocument` (of abstract type `ε`). -/
inductive GetterError (ε : Type) where
  | store (e : StoreExceptionData)
  | pyxb (e : ε)
  deriving DecidableEq, Repr

/-- `_parse_reply`: result code 1 or 2 deserialises `XMLout` with
`witsml.CreateFromDocument` (a failure of which propagates unchanged);
any other result code raises `StoreException(reply)`. -/
def _parse_reply {ε α : Type} (CreateFromDocument : String → Except ε α)
    (reply : Reply) : Except (GetterError ε) α :=
  if reply.Result = 1 then
    (CreateFromDocument reply.XMLout).mapError GetterError.pyxb
  else if reply.Result = 2 then
    (CreateFromDocument reply.XMLout).mapError GetterError.pyxb
  else
    Except.error (GetterError.store (StoreException_init reply))

/-- A witsml plural collection object such as `witsml.logs`: created
with a version attribute, holding a list of singular objects appended
to it. -/
structure Collection (Q : Type) where
  version : String
  objs : List Q
  deriving DecidableEq, Repr

/-- `collection.append(q)`. -/
def Collection.append {Q : Type} (c : Collection Q) (q : Q) : Collection Q :=
  { c with objs := c.objs ++ [q] }

/-- The slice of the external `witsml` binding module one getter needs:
the binding version `witsml.__version__`, serialisation of the plural
collection (`.toxml()`), and `witsml.CreateFromDocument`, which either
returns a typed collection `C` or fails with a pyxb error `ε`. -/
structure ObjectBinding (Q C ε : Type) where
  version : String
  toxml : Collection Q → String
  CreateFromDocument : String → Except ε C

/-- TLS verification argument: `Union[bool, str]` — a boolean toggle or
a path to a cacerts file. -/
inductive VerifySetting where
  | flag (b : Bool)
  | cacerts (path : String)
  deriving DecidableEq, Repr

/-- `RequestsTransport` state after `__init__`: `self.verify` is popped
from kwargs (default `None`) and `self.auth` is the
`(username, password)` pair (each popped with default `None`). -/
structure RequestsTransport where
  verify : Option VerifySetting
  auth : Option String × Option String
  deriving DecidableEq, Repr

/-- `RequestsTransport.__init__(**kwargs)`. -/
def RequestsTransport.init (username password : Option String)
    (verify : Option VerifySetting) : RequestsTransport :=
  { verify := verify, auth := (username, password) }

/-- A suds transport request as `send` receives it. -/
structure SudsRequest where
  url : String
  message : String
  headers : List (String × String)
  deriving DecidableEq, Repr

/-- The argument record of a `requests.post` invocation; `httpMethod` is
the HTTP method of the call (`requests.post` always posts). -/
structure PostArgs where
  httpMethod : String
  url : String
  data : String
  headers : List (String × String)
  verify : Option VerifySetting
  auth : Option String × Option String
  deriving DecidableEq, Repr

/-- A `requests` HTTP response. -/
structure HttpResponse where
  status_code : Nat
  headers : List (String × String)
  content : String
  deriving DecidableEq, Repr

/-- The `requests.HTTPError` raised by `Response.raise_for_status`. -/
structure HttpStatusError where
  status_code : Nat
  deriving DecidableEq, Repr

/-- `Response.raise_for_status()`: raises `HTTPError` exactly when the
status code is a 4xx client error or a 5xx server error. -/
def raise_for_status (resp : HttpResponse) : Except HttpStatusError Unit :=
  if 400 ≤ resp.status_code ∧ resp.status_code < 600 then
    Except.error { status_code := resp.status_code }
  else
    Except.ok ()

/-- The suds transport `Reply(status, headers, message)` built on HTTP
success. -/
structure TransportReply where
  code : Nat
  headers : List (String × String)
  message : String
  deriving DecidableEq, Repr

/-- The argument record `RequestsTransport.send` passes to
`requests.post`: the request's url, body and headers together with the
transport's own `verify` and `auth`. -/
def RequestsTransport.postArgs (self : RequestsTransport)
    (request : SudsRequest) : PostArgs :=
  { httpMethod := "POST"
    url := request.url
    data := request.message
    headers := request.headers
    verify := self.verify
    auth := self.auth }

/-- `RequestsTransport.send(request)`, parameterised over the
`requests.post` function: posts the request, calls `raise_for_status`,
and only then builds `Reply(status_code, headers, content)`.  The post
arguments are returned alongside so the outgoing call can be
inspected. -/
def RequestsTransport.send (post : PostArgs → HttpResponse)
    (self : RequestsTransport) (request : SudsRequest) :
    PostArgs × Except HttpStatusError TransportReply :=
  let resp := post (self.postArgs request)
  match raise_for_status resp with
  | Except.error e => (self.postArgs request, Except.error e)
  | Except.ok _ =>
      (self.postArgs request,
       Except.ok { code := resp.status_code
                   headers := resp.headers
                   message := resp.content })

/-- The options `simple_client` sets on the suds client via
`client.set_options(transport=..., headers=...)`. -/
structure SudsClientOptions where
  transport : RequestsTransport
  headers : List (String × String)
  deriving DecidableEq, Repr

/-- The suds `Client` after `simple_client` configures it: created from
the packaged local WSDL with `location=service_url`, then given the
transport and the User-Agent header. -/
structure SudsClient where
  wsdl : String
  location : String
  options : SudsClientOptions
  deriving DecidableEq, Repr

/-- The packaged WSDL file name (`WMLS.WSDL` next to the module; the
directory prefix from `os.path.dirname(__file__)` is
installation-dependent and not modelled). -/
def wsdl_file : String := "WMLS.WSDL"

/-- `simple_client(service_url, username, password, agent_name, verify)`:
builds a `RequestsTransport` with the given credentials and verify
setting, creates a suds client on the local WSDL with
`location=service_url`, and sets the transport and User-Agent
header. -/
def simple_client (service_url username password agent_name : String)
    (verify : VerifySetting) : SudsClient :=
  let transport := RequestsTransport.init (some username) (some password)
    (some verify)
  { wsdl := "file:" ++ wsdl_file
    location := service_url
    options := { transport := transport
                 headers := [("User-Agent", agent_name)] } }

/-- One remote procedure invocation performed by a getter: the procedure
name and the three arguments passed
(`WMLS_GetFromStore(WMLtypeIn, XMLin, OptionsIn=...)`). -/
structure ProcCall where
  procedure : String
  WMLtypeIn : String
  XMLin : String
  OptionsIn : String
  deriving DecidableEq, Repr

/-- `StoreClient` state: the configured suds client, plus the
WSDL-bound remote procedure `soap_client.service.WMLS_GetFromStore`
(the suds dispatch machinery is external, so the bound procedure is
modelled as a function from the three arguments to the reply). -/
structure StoreClient where
  soap_client : SudsClient
  service_WMLS_GetFromStore : String → String → String → Reply

/-- `StoreClient.__init__`: builds `self.soap_client` with
`simple_client`. -/
def StoreClient.init
    (service_WMLS_GetFromStore : String → String → String → Reply)
    (service_url username password agent_name : String)
    (verify : VerifySetting) : StoreClient :=
  { soap_client := simple_client service_url username password agent_name
      verify
    service_WMLS_GetFromStore := service_WMLS_GetFromStore }

/-- The default of every getter's `returnElements` parameter. -/
def default_returnElements : String := "id-only"

/-- The `returnElements` values the docstrings list as recognized. -/
def returnElements_values : List String :=
  ["all", "id-only", "header-only", "data-only", "station-location-only",
   "latest-change-only", "requested"]

/-- `StoreClient.get_bhaRuns`. -/
def StoreClient.get_bhaRuns {Q C ε : Type} (self : StoreClient)
    (witsml : ObjectBinding Q C ε) (q_bha : Q) (returnElements : String) :
    List ProcCall × Except (GetterError ε) C :=
  let q_bhas : Collection Q := { version := witsml.version, objs := [] }
  let q_bhas := q_bhas.append q_bha
  let reply_bhas := self.service_WMLS_GetFromStore "bhaRun"
    (witsml.toxml q_bhas) ("returnElements=" ++ returnElements)
  ([{ procedure := "WMLS_GetFromStore", WMLtypeIn := "bhaRun"
      XMLin := witsml.toxml q_bhas
      OptionsIn := "returnElements=" ++ returnElements }],
   _parse_reply witsml.CreateFromDocument reply_bhas)

/-- `StoreClient.get_bhaRuns` with `returnElements` omitted. -/
def StoreClient.get_bhaRuns_default {Q C ε : Type} (self : StoreClient)
    (witsml : ObjectBinding Q C ε) (q_bha : Q) :
    List ProcCall × Except (GetterError ε) C :=
  self.get_bhaRuns witsml q_bha default_returnElements

/-- `StoreClient.get_logs`. -/
def StoreClient.get_logs {Q C ε : Type} (self : StoreClient)
    (witsml : ObjectBinding Q C ε) (q_log : Q) (returnElements : String) :
    List ProcCall × Except (GetterError ε) C :=
  let q_logs : Collection Q := { version := witsml.version, objs := [] }
  let q_logs := q_logs.append q_log
  let reply_logs := self.service_WMLS_GetFromStore "log"
    (witsml.toxml q_logs) ("returnElements=" ++ returnElements)
  ([{ procedure := "WMLS_GetFromStore", WMLtypeIn := "log"
      XMLin := witsml.toxml q_logs
      OptionsIn := "returnElements=" ++ returnElements }],
   _parse_reply witsml.CreateFromDocument reply_logs)

/-- `StoreClient.get_logs` with `returnElements` omitted. -/
def StoreClient.get_logs_default {Q C ε : Type} (self : StoreClient)
    (witsml : ObjectBinding Q C ε) (q_log : Q) :
    List ProcCall × Except (GetterError ε) C :=
  self.get_logs witsml q_log default_returnElements

/-- `StoreClient.get_mudLogs`. -/
def StoreClient.get_mudLogs {Q C ε : Type} (self : StoreClient)
    (witsml : ObjectBinding Q C ε) (q_mudlog : Q) (returnElements : String) :
    List ProcCall × Except (GetterError ε) C :=
  let q_mudlogs : Collection Q := { version := witsml.version, objs := [] }
  let q_mudlogs := q_mudlogs.append q_mudlog
  let reply_mudlogs := self.service_WMLS_GetFromStore "mudLog"
    (witsml.toxml q_mudlogs) ("returnElements=" ++ returnElements)
  ([{ procedure := "WMLS_GetFromStore", WMLtypeIn := "mudLog"
      XMLin := witsml.toxml q_mudlogs
      OptionsIn := "returnElements=" ++ returnElements }],
   _parse_reply witsml.CreateFromDocument reply_mudlogs)

/-- `StoreClient.get_mudLogs` with `returnElements` omitted. -/
def StoreClient.get_mudLogs_default {Q C ε : Type} (self : StoreClient)
    (witsml : ObjectBinding Q C ε) (q_mudlog : Q) :
    List ProcCall × Except (GetterError ε) C :=
  self.get_mudLogs witsml q_mudlog default_returnElements

/-- `StoreClient.get_trajectorys`. -/
def StoreClient.get_trajectorys {Q C ε : Type} (self : StoreClient)
    (witsml : ObjectBinding Q C ε) (q_traj : Q) (returnElements : String) :
    List ProcCall × Except (GetterError ε) C :=
  let q_trajs : Collection Q := { version := witsml.version, objs := [] }
  let q_trajs := q_trajs.append q_traj
  let reply_traj := self.service_WMLS_GetFromStore "trajectory"
    (witsml.toxml q_trajs) ("returnElements=" ++ returnElements)
  ([{ procedure := "WMLS_GetFromStore", WMLtypeIn := "trajectory"
      XMLin := witsml.toxml q_trajs
      OptionsIn := "returnElements=" ++ returnElements }],
   _parse_reply witsml.CreateFromDocument reply_traj)

/-- `StoreClient.get_trajectorys` with `returnElements` omitted. -/
def StoreClient.get_trajectorys_default {Q C ε : Type} (self : StoreClient)
    (witsml : ObjectBinding Q C ε) (q_traj : Q) :
    List ProcCall × Except (GetterError ε) C :=
  self.get_trajectorys witsml q_traj default_returnElements

/-- `StoreClient.get_wellbores`. -/
def StoreClient.get_wellbores {Q C ε : Type} (self : StoreClient)
    (witsml : ObjectBinding Q C ε) (q_wellbore : Q) (returnElements : String) :
    List ProcCall × Except (GetterError ε) C :=
  let q_wellbores : Collection Q := { version := witsml.version, objs := [] }
  let q_wellbores := q_wellbores.append q_wellbore
  let reply_wellbores := self.service_WMLS_GetFromStore "wellbore"
    (witsml.toxml q_wellbores) ("returnElements=" ++ returnElements)
  ([{ procedure := "WMLS_GetFromStore", WMLtypeIn := "wellbore"
      XMLin := witsml.toxml q_wellbores
      OptionsIn := "returnElements=" ++ returnElements }],
   _parse_reply witsml.CreateFromDocument reply_wellbores)

/-- `StoreClient.get_wellbores` with `returnElements` omitted. -/
def StoreClient.get_wellbores_default {Q C ε : Type} (self : StoreClient)
    (witsml : ObjectBinding Q C ε) (q_wellbore : Q) :
    List ProcCall × Except (GetterError ε) C :=
  self.get_wellbores witsml q_wellbore default_returnElements

/-- `StoreClient.get_tubulars`. -/
def StoreClient.get_tubulars {Q C ε : Type} (self : StoreClient)
    (witsml : ObjectBinding Q C ε) (q_tubular : Q) (returnElements : String) :
    List ProcCall × Except (GetterError ε) C :=
  let q_tubulars : Collection Q := { version := witsml.version, objs := [] }
  let q_tubulars := q_tubulars.append q_tubular
  let reply_tubular := self.service_WMLS_GetFromStore "tubular"
    (witsml.toxml q_tubulars) ("returnElements=" ++ returnElements)
  ([{ procedure := "WMLS_GetFromStore", WMLtypeIn := "tubular"
      XMLin := witsml.toxml q_tubulars
      OptionsIn := "returnElements=" ++ returnElements }],
   _parse_reply witsml.CreateFromDocument reply_tubular)

/-- `StoreClient.get_tubulars` with `returnElements` omitted. -/
def StoreClient.get_tubulars_default {Q C ε : Type} (self : StoreClient)
    (witsml : ObjectBinding Q C ε) (q_tubular : Q) :
    List ProcCall × Except (GetterError ε) C :=
  self.get_tubulars witsml q_tubular default_returnElements

/-- `StoreClient.get_fluidsReports`. -/
def StoreClient.get_fluidsReports {Q C ε : Type} (self : StoreClient)
    (witsml : ObjectBinding Q C ε) (q_fluidsReport : Q)
    (returnElements : String) :
    List ProcCall × Except (GetterError ε) C :=
  let q_fluidsReports : Collection Q :=
    { version := witsml.version, objs := [] }
  let q_fluidsReports := q_fluidsReports.append q_fluidsReport
  let reply_fluidsReport := self.service_WMLS_GetFromStore "fluidsReport"
    (witsml.toxml q_fluidsReports) ("returnElements=" ++ returnElements)
  ([{ procedure := "WMLS_GetFromStore", WMLtypeIn := "fluidsReport"
      XMLin := witsml.toxml q_fluidsReports
      OptionsIn := "returnElements=" ++ returnElements }],
   _parse_reply witsml.CreateFromDocument reply_fluidsReport)

/-- `StoreClient.get_fluidsReports` with `returnElements` omitted. -/
def StoreClient.get_fluidsReports_default {Q C ε : Type} (self : StoreClient)
    (witsml : ObjectBinding Q C ε) (q_fluidsReport : Q) :
    List ProcCall × Except (GetterError ε) C :=
  self.get_fluidsReports witsml q_fluidsReport default_returnElements

/-- `StoreClient.get_drillReports`. -/
def StoreClient.get_drillReports {Q C ε : Type} (self : StoreClient)
    (witsml : ObjectBinding Q C ε) (q_drillReport : Q)
    (returnElements : String) :
    List ProcCall × Except (GetterError ε) C :=
  let q_drillReports : Collection Q :=
    { version := witsml.version, objs := [] }
  let q_drillReports := q_drillReports.append q_drillReport
  let reply_drillReport := self.service_WMLS_GetFromStore "drillReport"
    (witsml.toxml q_drillReports) ("returnElements=" ++ returnElements)
  ([{ procedure := "WMLS_GetFromStore", WMLtypeIn := "drillReport"
      XMLin := witsml.toxml q_drillReports
      OptionsIn := "returnElements=" ++ returnElements }],
   _parse_reply witsml.CreateFromDocument reply_drillReport)

/-- `StoreClient.get_drillReports` with `returnElements` omitted. -/
def StoreClient.get_drillReports_default {Q C ε : Type} (self : StoreClient)
    (witsml : ObjectBinding Q C ε) (q_drillReport : Q) :
    List ProcCall × Except (GetterError ε) C :=
  self.get_drillReports witsml q_drillReport default_returnElements

/-- `StoreClient.get_wbGeometrys`. -/
def StoreClient.get_wbGeometrys {Q C ε : Type} (self : StoreClient)
    (witsml : ObjectBinding Q C ε) (q_wbGeometry : Q)
    (returnElements : String) :
    List ProcCall × Except (GetterError ε) C :=
  let q_wbGeometrys : Collection Q :=
    { version := witsml.version, objs := [] }
  let q_wbGeometrys := q_wbGeometrys.append q_wbGeometry
  let reply_wbGeometry := self.service_WMLS_GetFromStore "wbGeometry"
    (witsml.toxml q_wbGeometrys) ("returnElements=" ++ returnElements)
  ([{ procedure := "WMLS_GetFromStore", WMLtypeIn := "wbGeometry"
      XMLin := witsml.toxml q_wbGeometrys
      OptionsIn := "returnElements=" ++ returnElements }],
   _parse_reply witsml.CreateFromDocument reply_wbGeometry)

/-- `StoreClient.get_wbGeometrys` with `returnElements` omitted. -/
def StoreClient.get_wbGeometrys_default {Q C ε : Type} (self : StoreClient)
    (witsml : ObjectBinding Q C ε) (q_wbGeometry : Q) :
    List ProcCall × Except (GetterError ε) C :=
  self.get_wbGeometrys witsml q_wbGeometry default_returnElements

/-- `StoreClient.get_formationMarkers`. -/
def StoreClient.get_formationMarkers {Q C ε : Type} (self : StoreClient)
    (witsml : ObjectBinding Q C ε) (q_formationMarker : Q)
    (returnElements : String) :
    List ProcCall × Except (GetterError ε) C :=
  let q_formationMarkers : Collection Q :=
    { version := witsml.version, objs := [] }
  let q_formationMarkers := q_formationMarkers.append q_formationMarker
  let reply_formationMarker := self.service_WMLS_GetFromStore
    "formationMarker" (witsml.toxml q_formationMarkers)
    ("returnElements=" ++ returnElements)
  ([{ procedure := "WMLS_GetFromStore", WMLtypeIn := "formationMarker"
      XMLin := witsml.toxml q_formationMarkers
      OptionsIn := "returnElements=" ++ returnElements }],
   _parse_reply witsml.CreateFromDocument reply_formationMarker)

/-- `StoreClient.get_formationMarkers` with `returnElements` omitted. -/
def StoreClient.get_formationMarkers_default {Q C ε : Type}
    (self : StoreClient) (witsml : ObjectBinding Q C ε)
    (q_formationMarker : Q) :
    List ProcCall × Except (GetterError ε) C :=
  self.get_formationMarkers witsml q_formationMarker default_returnElements

/-- The singleton query collection every getter builds: the plural
collection constructed with the binding's version, holding exactly the
query object. -/
def singletonCollection {Q : Type} (version : String) (q : Q) :
    Collection Q :=
  { version := version, objs := [q] }

/-- The remote call a getter with discriminator `disc` performs for
query `q` and option string value `re`. -/
def expectedCall {Q C ε : Type} (witsml : ObjectBinding Q C ε)
    (disc : String) (q : Q) (re : String) : ProcCall :=
  { procedure := "WMLS_GetFromStore", WMLtypeIn := disc
    XMLin := witsml.toxml (singletonCollection witsml.version q)
    OptionsIn := "returnElements=" ++ re }

/-- The reply a client's service produces for the call `c`. -/
def serviceReply (self : StoreClient) (c : ProcCall) : Reply :=
  self.service_WMLS_GetFromStore c.WMLtypeIn c.XMLin c.OptionsIn

/-- A concrete binding used to instantiate universally quantified
theorems at evaluable inputs: queries are `Nat`, documents are the XML
text itself, pyxb errors are strings, deserialisation always
succeeds. -/
def demoBinding : ObjectBinding Nat String String :=
  { version := "1.4.1.1"
    toxml := fun c => toString c.objs.length
    CreateFromDocument := fun s => Except.ok s }

/-- A concrete binding whose deserialisation always fails, standing for
a schema-validation failure on every document. -/
def demoBadBinding : ObjectBinding Nat String String :=
  { version := "1.4.1.1"
    toxml := fun c => toString c.objs.length
    CreateFromDocument := fun s => Except.error ("invalid: " ++ s) }

/-- A concrete service that answers every call with result code 1 and
document `<logs/>`. -/
def demoService : String → String → String → Reply :=
  fun _ _ _ => { Result := 1, SuppMsgOut := "", XMLout := "<logs/>" }

/-- A concrete service that answers every call with the error result
code -423. -/
def demoErrService : String → String → String → Reply :=
  fun _ _ _ => { Result := -423, SuppMsgOut := "Does not exist", XMLout := "" }

/-- A concrete store client over `demoService`. -/
def demoClient : StoreClient :=
  StoreClient.init demoService "https://example.com/store" "user" "pass"
    "komle" (VerifySetting.flag true)

/-- A concrete store client over `demoErrService`. -/
def demoErrClient : StoreClient :=
  StoreClient.init demoErrService "https://example.com/store" "user" "pass"
    "komle" (VerifySetting.flag true)

/-- A concrete transport request. -/
def demoRequest : SudsRequest :=
  { url := "https://example.com/store"
    message := "<soap/>"
    headers := [("User-Agent", "komle")] }

/-- A concrete `requests.post` answering 200 OK. -/
def demoPost : PostArgs → HttpResponse :=
  fun _ => { status_code := 200, headers := [], content := "<ok/>" }

/-- A concrete `requests.post` answering 404. -/
def demoPost404 : PostArgs → HttpResponse :=
  fun _ => { status_code := 404, headers := [], content := "not found" }

/-- A concrete transport with credentials and verification enabled. -/
def demoTransport : RequestsTransport :=
  RequestsTransport.init (some "user") (some "pass")
    (some (VerifySetting.flag true))

/-- A concrete error reply, as a store answers a query for a missing
object. -/
def demoErrReply : Reply :=
  { Result := -423, SuppMsgOut := "Does not exist", XMLout := "" }

/-- The type of a getter as a function of the client: binding, query
object, `returnElements` in; performed remote calls and outcome out. -/
def Getter (Q C ε : Type) : Type :=
  StoreClient → ObjectBinding Q C ε → Q → String →
    List ProcCall × Except (GetterError ε) C

/-- The type of a getter applied with its `returnElements` default. -/
def DefaultGetter (Q C ε : Type) : Type :=
  StoreClient → ObjectBinding Q C ε → Q →
    List ProcCall × Except (GetterError ε) C

/-- Getter `g` with discriminator `disc` raises `StoreException`
whenever the service reply's result code is neither 1 nor 2: the
outcome is the store error whose message is the result code, a colon
and a space, then the supplementary message, and no collection is
returned. -/
def getter_raises_store (Q C ε : Type) (g : Getter Q C ε)
    (disc : String) : Prop :=
  ∀ (self : StoreClient) (w : ObjectBinding Q C ε) (q : Q) (re : String),
    (serviceReply self (expectedCall w disc q re)).Result ≠ 1 →
    (serviceReply self (expectedCall w disc q re)).Result ≠ 2 →
    (g self w q re).snd = Except.error (GetterError.store
      { message :=
          toString (serviceReply self (expectedCall w disc q re)).Result
            ++ ": "
            ++ (serviceReply self (expectedCall w disc q re)).SuppMsgOut
        reply := serviceReply self (expectedCall w disc q re) })

/-- Getter `g` with discriminator `disc` wraps the query in the
singleton collection built with the binding's version, sends its XML
with the given `returnElements` value, and on result code 1 or 2
returns the collection `CreateFromDocument` deserialises from the
reply. -/
def getter_round_trip (Q C ε : Type) (g : Getter Q C ε)
    (disc : String) : Prop :=
  ∀ (self : StoreClient) (w : ObjectBinding Q C ε) (q : Q) (re : String)
    (v : C),
    (g self w q re).fst = [expectedCall w disc q re] ∧
    (((serviceReply self (expectedCall w disc q re)).Result = 1 ∨
      (serviceReply self (expectedCall w disc q re)).Result = 2) →
     w.CreateFromDocument
       (serviceReply self (expectedCall w disc q re)).XMLout = Except.ok v →
     (g self w q re).snd = Except.ok v)

/-- Getter `g` with discriminator `disc` performs exactly the one call
`WMLS_GetFromStore(disc, toxml(singleton), returnElements=re)`. -/
def getter_call_shape (Q C ε : Type) (g : Getter Q C ε)
    (disc : String) : Prop :=
  ∀ (self : StoreClient) (w : ObjectBinding Q C ε) (q : Q) (re : String),
    (g self w q re).fst = [expectedCall w disc q re]

/-- On a result code of 1 or 2, a `CreateFromDocument` failure (a pyxb
schema-validation error) propagates unchanged out of getter `g`: no
`StoreException` and no collection. -/
def getter_propagates_pyxb (Q C ε : Type) (g : Getter Q C ε)
    (disc : String) : Prop :=
  ∀ (self : StoreClient) (w : ObjectBinding Q C ε) (q : Q) (re : String)
    (e : ε),
    ((serviceReply self (expectedCall w disc q re)).Result = 1 ∨
     (serviceReply self (expectedCall w disc q re)).Result = 2) →
    w.CreateFromDocument
      (serviceReply self (expectedCall w disc q re)).XMLout =
        Except.error e →
    (g self w q re).snd = Except.error (GetterError.pyxb e)

/-- Getter `g` performs exactly one remote call and it is
`WMLS_GetFromStore`. -/
def getter_single_call (Q C ε : Type) (g : Getter Q C ε) : Prop :=
  ∀ (self : StoreClient) (w : ObjectBinding Q C ε) (q : Q) (re : String),
    (g self w q re).fst.length = 1 ∧
    (g self w q re).fst.map ProcCall.procedure = ["WMLS_GetFromStore"]

/-- Calling getter `g` with the `returnElements` argument omitted is
the same call as passing the string id-only. -/
def getter_default_is_id_only (Q C ε : Type) (gd : DefaultGetter Q C ε)
    (g : Getter Q C ε) : Prop :=
  ∀ (self : StoreClient) (w : ObjectBinding Q C ε) (q : Q),
    gd self w q = g self w q "id-only"

/-- Getter `g` forwards every `returnElements` string unchanged: for
any string `s` the single remote call carries the option string
`returnElements=` followed by `s`, and the getter proceeds to parse the
service reply with no client-side check on `s`. -/
def getter_forwards_returnElements (Q C ε : Type) (g : Getter Q C ε)
    (disc : String) : Prop :=
  ∀ (self : StoreClient) (w : ObjectBinding Q C ε) (q : Q) (s : String),
    (g self w q s).fst.map ProcCall.OptionsIn = ["returnElements=" ++ s] ∧
    (g self w q s).snd =
      _parse_reply w.CreateFromDocument
        (serviceReply self (expectedCall w disc q s))

/-- On result code 1 or 2, `_parse_reply` returns whatever
`CreateFromDocument` returns on the reply's XML. -/
theorem parse_reply_success (ε α : Type) (cfd : String → Except ε α)
    (r : Reply) (h : r.Result = 1 ∨ r.Result = 2) :
    _parse_reply cfd r = (cfd r.XMLout).mapError GetterError.pyxb := by
  rcases h with h | h <;> simp [_parse_reply, h]

/-- On result code 1 or 2 with successful deserialisation,
`_parse_reply` returns the deserialised value. -/
theorem parse_reply_ok (ε α : Type) (cfd : String → Except ε α)
    (r : Reply) (v : α) (h : r.Result = 1 ∨ r.Result = 2)
    (hv : cfd r.XMLout = Except.ok v) :
    _parse_reply cfd r = Except.ok v := by
  rw [parse_reply_success ε α cfd r h, hv]
  rfl

/-- On result code 1 or 2 with failing deserialisation, `_parse_reply`
propagates the pyxb error. -/
theorem parse_reply_pyxb (ε α : Type) (cfd : String → Except ε α)
    (r : Reply) (e : ε) (h : r.Result = 1 ∨ r.Result = 2)
    (he : cfd r.XMLout = Except.error e) :
    _parse_reply cfd r = Except.error (GetterError.pyxb e) := by
  rw [parse_reply_success ε α cfd r h, he]
  rfl

/-- Outside result codes 1 and 2, `_parse_reply` raises
`StoreException`. -/
theorem parse_reply_store (ε α : Type) (cfd : String → Except ε α)
    (r : Reply) (h1 : r.Result ≠ 1) (h2 : r.Result ≠ 2) :
    _parse_reply cfd r =
      Except.error (GetterError.store (StoreException_init r)) := by
  simp [_parse_reply, h1, h2]

/-- `RequestsTransport.send` posts exactly the argument record built
from the request and the transport's own settings, whatever the
response status. -/
theorem send_fst (post : PostArgs → HttpResponse)
    (t : RequestsTransport) (request : SudsRequest) :
    (t.send post request).fst = t.postArgs request := by
  simp only [RequestsTransport.send]
  split <;> rfl

/-- C1: for every reply whose result code is neither 1 nor 2,
`_parse_reply` — and hence every one of the ten getters — raises a
`StoreException` whose message is the result code followed by a colon,
a space and the supplementary message, and no collection is
returned. -/
theorem C1_store_exception_on_error_code :
    (∀ (ε α : Type) (cfd : String → Except ε α) (r : Reply),
       r.Result ≠ 1 → r.Result ≠ 2 →
       _parse_reply cfd r = Except.error (GetterError.store
         { message := toString r.Result ++ ": " ++ r.SuppMsgOut
           reply := r })) ∧
    (∀ (Q C ε : Type),
       getter_raises_store Q C ε StoreClient.get_bhaRuns "bhaRun" ∧
       getter_raises_store Q C ε StoreClient.get_logs "log" ∧
       getter_raises_store Q C ε StoreClient.get_mudLogs "mudLog" ∧
       getter_raises_store Q C ε StoreClient.get_trajectorys "trajectory" ∧
       getter_raises_store Q C ε StoreClient.get_wellbores "wellbore" ∧
       getter_raises_store Q C ε StoreClient.get_tubulars "tubular" ∧
       getter_raises_store Q C ε StoreClient.get_fluidsReports
         "fluidsReport" ∧
       getter_raises_store Q C ε StoreClient.get_drillReports
         "drillReport" ∧
       getter_raises_store Q C ε StoreClient.get_wbGeometrys "wbGeometry" ∧
       getter_raises_store Q C ε StoreClient.get_formationMarkers
         "formationMarker") := by
  constructor
  · intro ε α cfd r h1 h2
    exact parse_reply_store ε α cfd r h1 h2
  · intro Q C ε
    refine ⟨?_, ?_, ?_, ?_, ?_, ?_, ?_, ?_, ?_, ?_⟩ <;>
      (intro self w q re h1 h2
       exact parse_reply_store ε C w.CreateFromDocument _ h1 h2)

/-- C1 witness: the error reply with code -423 raises the store error
with message made of the code, a colon and a space, and the
supplementary message. -/
theorem C1_store_exception_on_error_code_witness :
    (demoErrReply.Result ≠ 1 ∧ demoErrReply.Result ≠ 2) ∧
    _parse_reply demoBinding.CreateFromDocument demoErrReply =
      Except.error (GetterError.store
        { message := toString demoErrReply.Result ++ ": "
            ++ demoErrReply.SuppMsgOut
          reply := demoErrReply }) :=
  ⟨⟨by decide, by decide⟩,
   C1_store_exception_on_error_code.1 String String
     demoBinding.CreateFromDocument demoErrReply (by decide) (by decide)⟩

/-- C2: on result code 1 or 2, `_parse_reply` raises no
`StoreException` and returns exactly what `CreateFromDocument` gives on
the reply's XML; in particular a successful deserialisation is
returned as is, and two replies with codes 1 and 2 and the same XML
give identical results. -/
theorem C2_success_codes_deserialize :
    (∀ (ε α : Type) (cfd : String → Except ε α) (r : Reply),
       r.Result = 1 ∨ r.Result = 2 →
       _parse_reply cfd r = (cfd r.XMLout).mapError GetterError.pyxb) ∧
    (∀ (ε α : Type) (cfd : String → Except ε α) (r : Reply) (v : α),
       r.Result = 1 ∨ r.Result = 2 → cfd r.XMLout = Except.ok v →
       _parse_reply cfd r = Except.ok v) ∧
    (∀ (ε α : Type) (cfd : String → Except ε α) (r1 r2 : Reply),
       r1.Result = 1 → r2.Result = 2 → r1.XMLout = r2.XMLout →
       _parse_reply cfd r1 = _parse_reply cfd r2) := by
  refine ⟨parse_reply_success, parse_reply_ok, ?_⟩
  intro ε α cfd r1 r2 h1 h2 hx
  rw [parse_reply_success ε α cfd r1 (Or.inl h1),
      parse_reply_success ε α cfd r2 (Or.inr h2), hx]

/-- C2 witness: a code-1 reply and a code-2 reply with the same XML
deserialise identically, to the document itself under the demo
binding. -/
theorem C2_success_codes_deserialize_witness :
    ((1 : Int) = 1 ∨ (1 : Int) = 2) ∧
    demoBinding.CreateFromDocument "<logs/>" = Except.ok "<logs/>" ∧
    _parse_reply demoBinding.CreateFromDocument
      { Result := 1, SuppMsgOut := "", XMLout := "<logs/>" } =
      Except.ok "<logs/>" ∧
    _parse_reply demoBinding.CreateFromDocument
      { Result := 1, SuppMsgOut := "", XMLout := "<logs/>" } =
      _parse_reply demoBinding.CreateFromDocument
      { Result := 2, SuppMsgOut := "partial", XMLout := "<logs/>" } :=
  ⟨Or.inl rfl, rfl,
   C2_success_codes_deserialize.2.1 String String
     demoBinding.CreateFromDocument
     { Result := 1, SuppMsgOut := "", XMLout := "<logs/>" } "<logs/>"
     (Or.inl rfl) rfl,
   C2_success_codes_deserialize.2.2 String String
     demoBinding.CreateFromDocument
     { Result := 1, SuppMsgOut := "", XMLout := "<logs/>" }
     { Result := 2, SuppMsgOut := "partial", XMLout := "<logs/>" }
     rfl rfl rfl⟩

/-- C3: each of the ten getters wraps its query object into a fresh
singleton collection of the matching plural type, built with the
binding's version and holding exactly that object, sends its XML with
the given `returnElements` value, and on result code 1 or 2 returns
the typed collection deserialised from the reply. -/
theorem C3_round_trip :
    ∀ (Q C ε : Type),
      getter_round_trip Q C ε StoreClient.get_bhaRuns "bhaRun" ∧
      getter_round_trip Q C ε StoreClient.get_logs "log" ∧
      getter_round_trip Q C ε StoreClient.get_mudLogs "mudLog" ∧
      getter_round_trip Q C ε StoreClient.get_trajectorys "trajectory" ∧
      getter_round_trip Q C ε StoreClient.get_wellbores "wellbore" ∧
      getter_round_trip Q C ε StoreClient.get_tubulars "tubular" ∧
      getter_round_trip Q C ε StoreClient.get_fluidsReports
        "fluidsReport" ∧
      getter_round_trip Q C ε StoreClient.get_drillReports
        "drillReport" ∧
      getter_round_trip Q C ε StoreClient.get_wbGeometrys "wbGeometry" ∧
      getter_round_trip Q C ε StoreClient.get_formationMarkers
        "formationMarker" := by
  intro Q C ε
  refine ⟨?_, ?_, ?_, ?_, ?_, ?_, ?_, ?_, ?_, ?_⟩ <;>
    (intro self w q re v
     exact ⟨rfl, fun h hv => parse_reply_ok ε C w.CreateFromDocument _ v h hv⟩)

/-- C3 witness: a `get_logs` call under the demo binding performs the
expected singleton-collection call and returns the deserialised
document on the code-1 reply. -/
theorem C3_round_trip_witness :
    ((serviceReply demoClient (expectedCall demoBinding "log" 7 "all")).Result
        = 1 ∨
     (serviceReply demoClient (expectedCall demoBinding "log" 7 "all")).Result
        = 2) ∧
    demoBinding.CreateFromDocument
      (serviceReply demoClient
        (expectedCall demoBinding "log" 7 "all")).XMLout =
      Except.ok "<logs/>" ∧
    (demoClient.get_logs demoBinding 7 "all").snd = Except.ok "<logs/>" :=
  ⟨Or.inl rfl, rfl,
   (C3_round_trip Nat String String).2.1 demoClient demoBinding 7 "all"
     "<logs/>" |>.2 (Or.inl rfl) rfl⟩

/-- C4: every getter invokes `WMLS_GetFromStore` with its singular
object-type discriminator as `WMLtypeIn` and with `OptionsIn` equal to
the string `returnElements=` concatenated with the `returnElements`
argument; the recognized `returnElements` values the interface lists
are exactly all, id-only, header-only, data-only,
station-location-only, latest-change-only and requested. -/
theorem C4_call_discriminators_and_options :
    returnElements_values =
      ["all", "id-only", "header-only", "data-only",
       "station-location-only", "latest-change-only", "requested"] ∧
    (∀ (Q C ε : Type),
       getter_call_shape Q C ε StoreClient.get_bhaRuns "bhaRun" ∧
       getter_call_shape Q C ε StoreClient.get_logs "log" ∧
       getter_call_shape Q C ε StoreClient.get_mudLogs "mudLog" ∧
       getter_call_shape Q C ε StoreClient.get_trajectorys "trajectory" ∧
       getter_call_shape Q C ε StoreClient.get_wellbores "wellbore" ∧
       getter_call_shape Q C ε StoreClient.get_tubulars "tubular" ∧
       getter_call_shape Q C ε StoreClient.get_fluidsReports
         "fluidsReport" ∧
       getter_call_shape Q C ε StoreClient.get_drillReports
         "drillReport" ∧
       getter_call_shape Q C ε StoreClient.get_wbGeometrys "wbGeometry" ∧
       getter_call_shape Q C ε StoreClient.get_formationMarkers
         "formationMarker") := by
  refine ⟨rfl, ?_⟩
  intro Q C ε
  refine ⟨?_, ?_, ?_, ?_, ?_, ?_, ?_, ?_, ?_, ?_⟩ <;>
    (intro self w q re; rfl)

/-- C4 witness: the concrete `get_trajectorys` call carries the
trajectory discriminator and the concatenated option string. -/
theorem C4_call_discriminators_and_options_witness :
    (demoClient.get_trajectorys demoBinding 3 "data-only").fst =
      [{ procedure := "WMLS_GetFromStore", WMLtypeIn := "trajectory"
         XMLin := demoBinding.toxml
           (singletonCollection demoBinding.version 3)
         OptionsIn := "returnElements=" ++ "data-only" }] :=
  (C4_call_discriminators_and_options.2 Nat String String).2.2.2.1
    demoClient demoBinding 3 "data-only"

/-- C5: on a reply with result code 1 or 2 whose XML fails to
deserialise, every getter raises no `StoreException` and returns no
value; the binding's schema-validation error propagates unchanged. -/
theorem C5_pyxb_error_propagates :
    ∀ (Q C ε : Type),
      getter_propagates_pyxb Q C ε StoreClient.get_bhaRuns "bhaRun" ∧
      getter_propagates_pyxb Q C ε StoreClient.get_logs "log" ∧
      getter_propagates_pyxb Q C ε StoreClient.get_mudLogs "mudLog" ∧
      getter_propagates_pyxb Q C ε StoreClient.get_trajectorys
        "trajectory" ∧
      getter_propagates_pyxb Q C ε StoreClient.get_wellbores "wellbore" ∧
      getter_propagates_pyxb Q C ε StoreClient.get_tubulars "tubular" ∧
      getter_propagates_pyxb Q C ε StoreClient.get_fluidsReports
        "fluidsReport" ∧
      getter_propagates_pyxb Q C ε StoreClient.get_drillReports
        "drillReport" ∧
      getter_propagates_pyxb Q C ε StoreClient.get_wbGeometrys
        "wbGeometry" ∧
      getter_propagates_pyxb Q C ε StoreClient.get_formationMarkers
        "formationMarker" := by
  intro Q C ε
  refine ⟨?_, ?_, ?_, ?_, ?_, ?_, ?_, ?_, ?_, ?_⟩ <;>
    (intro self w q re e h he
     exact parse_reply_pyxb ε C w.CreateFromDocument _ e h he)

/-- C5 witness: under the always-failing binding, `get_wellbores` on a
code-1 reply surfaces the schema-validation error itself. -/
theorem C5_pyxb_error_propagates_witness :
    ((serviceReply demoClient
        (expectedCall demoBadBinding "wellbore" 0 "all")).Result = 1 ∨
     (serviceReply demoClient
        (expectedCall demoBadBinding "wellbore" 0 "all")).Result = 2) ∧
    demoBadBinding.CreateFromDocument
      (serviceReply demoClient
        (expectedCall demoBadBinding "wellbore" 0 "all")).XMLout =
      Except.error ("invalid: " ++ "<logs/>") ∧
    (demoClient.get_wellbores demoBadBinding 0 "all").snd =
      Except.error (GetterError.pyxb ("invalid: " ++ "<logs/>")) :=
  ⟨Or.inl rfl, rfl,
   (C5_pyxb_error_propagates Nat String String).2.2.2.2.1 demoClient
     demoBadBinding 0 "all" ("invalid: " ++ "<logs/>") (Or.inl rfl) rfl⟩

/-- C6: every getter performs exactly one remote procedure call per
invocation, and that call is `WMLS_GetFromStore`. -/
theorem C6_single_remote_call :
    ∀ (Q C ε : Type),
      getter_single_call Q C ε StoreClient.get_bhaRuns ∧
      getter_single_call Q C ε StoreClient.get_logs ∧
      getter_single_call Q C ε StoreClient.get_mudLogs ∧
      getter_single_call Q C ε StoreClient.get_trajectorys ∧
      getter_single_call Q C ε StoreClient.get_wellbores ∧
      getter_single_call Q C ε StoreClient.get_tubulars ∧
      getter_single_call Q C ε StoreClient.get_fluidsReports ∧
      getter_single_call Q C ε StoreClient.get_drillReports ∧
      getter_single_call Q C ε StoreClient.get_wbGeometrys ∧
      getter_single_call Q C ε StoreClient.get_formationMarkers := by
  intro Q C ε
  refine ⟨?_, ?_, ?_, ?_, ?_, ?_, ?_, ?_, ?_, ?_⟩ <;>
    (intro self w q re; exact ⟨rfl, rfl⟩)

/-- C6 witness: the concrete `get_bhaRuns` call performs one call, to
`WMLS_GetFromStore`. -/
theorem C6_single_remote_call_witness :
    (demoClient.get_bhaRuns demoBinding 0 "id-only").fst.length = 1 ∧
    (demoClient.get_bhaRuns demoBinding 0 "id-only").fst.map
      ProcCall.procedure = ["WMLS_GetFromStore"] :=
  (C6_single_remote_call Nat String String).1 demoClient demoBinding 0
    "id-only"

/-- C7: for a client built by `simple_client`, every outgoing request
its transport sends is an HTTP POST carrying exactly the constructor's
(username, password) pair as Basic-auth credentials and the
constructor's verify setting. -/
theorem C7_transport_auth_and_verify :
    ∀ (service_url username password agent_name : String)
      (verify : VerifySetting) (post : PostArgs → HttpResponse)
      (request : SudsRequest),
      ((simple_client service_url username password agent_name
          verify).options.transport.send post request).fst =
        (simple_client service_url username password agent_name
          verify).options.transport.postArgs request ∧
      ((simple_client service_url username password agent_name
          verify).options.transport.postArgs request).httpMethod =
        "POST" ∧
      ((simple_client service_url username password agent_name
          verify).options.transport.postArgs request).auth =
        (some username, some password) ∧
      ((simple_client service_url username password agent_name
          verify).options.transport.postArgs request).verify =
        some verify := by
  intro service_url username password agent_name verify post request
  exact ⟨send_fst post _ request, rfl, rfl, rfl⟩

/-- C7 witness: the concrete client posts with the constructor's
credentials and verify flag. -/
theorem C7_transport_auth_and_verify_witness :
    ((simple_client "https://example.com/store" "user" "pass" "komle"
        (VerifySetting.flag true)).options.transport.send demoPost
        demoRequest).fst =
      (simple_client "https://example.com/store" "user" "pass" "komle"
        (VerifySetting.flag true)).options.transport.postArgs
        demoRequest ∧
    ((simple_client "https://example.com/store" "user" "pass" "komle"
        (VerifySetting.flag true)).options.transport.postArgs
        demoRequest).httpMethod = "POST" ∧
    ((simple_client "https://example.com/store" "user" "pass" "komle"
        (VerifySetting.flag true)).options.transport.postArgs
        demoRequest).auth = (some "user", some "pass") ∧
    ((simple_client "https://example.com/store" "user" "pass" "komle"
        (VerifySetting.flag true)).options.transport.postArgs
        demoRequest).verify = some (VerifySetting.flag true) :=
  C7_transport_auth_and_verify "https://example.com/store" "user" "pass"
    "komle" (VerifySetting.flag true) demoPost demoRequest

/-- C8: for each of the ten getters, omitting the `returnElements`
argument yields the very same call as passing the string id-only. -/
theorem C8_default_returnElements :
    default_returnElements = "id-only" ∧
    (∀ (Q C ε : Type),
       getter_default_is_id_only Q C ε StoreClient.get_bhaRuns_default
         StoreClient.get_bhaRuns ∧
       getter_default_is_id_only Q C ε StoreClient.get_logs_default
         StoreClient.get_logs ∧
       getter_default_is_id_only Q C ε StoreClient.get_mudLogs_default
         StoreClient.get_mudLogs ∧
       getter_default_is_id_only Q C ε
         StoreClient.get_trajectorys_default StoreClient.get_trajectorys ∧
       getter_default_is_id_only Q C ε StoreClient.get_wellbores_default
         StoreClient.get_wellbores ∧
       getter_default_is_id_only Q C ε StoreClient.get_tubulars_default
         StoreClient.get_tubulars ∧
       getter_default_is_id_only Q C ε
         StoreClient.get_fluidsReports_default
         StoreClient.get_fluidsReports ∧
       getter_default_is_id_only Q C ε
         StoreClient.get_drillReports_default
         StoreClient.get_drillReports ∧
       getter_default_is_id_only Q C ε
         StoreClient.get_wbGeometrys_default StoreClient.get_wbGeometrys ∧
       getter_default_is_id_only Q C ε
         StoreClient.get_formationMarkers_default
         StoreClient.get_formationMarkers) := by
  refine ⟨rfl, ?_⟩
  intro Q C ε
  refine ⟨?_, ?_, ?_, ?_, ?_, ?_, ?_, ?_, ?_, ?_⟩ <;>
    (intro self w q; rfl)

/-- C8 witness: the concrete defaulted `get_logs` call equals the
explicit id-only call. -/
theorem C8_default_returnElements_witness :
    demoClient.get_logs_default demoBinding 5 =
      demoClient.get_logs demoBinding 5 "id-only" :=
  (C8_default_returnElements.2 Nat String String).2.1 demoClient
    demoBinding 5

/-- C9: no getter validates the `returnElements` argument: any string
whatsoever is forwarded to the server unchanged inside the
`returnElements=` option string, and the getter proceeds to the remote
call and reply parsing with no client-side error. -/
theorem C9_no_returnElements_validation :
    ∀ (Q C ε : Type),
      getter_forwards_returnElements Q C ε StoreClient.get_bhaRuns
        "bhaRun" ∧
      getter_forwards_returnElements Q C ε StoreClient.get_logs "log" ∧
      getter_forwards_returnElements Q C ε StoreClient.get_mudLogs
        "mudLog" ∧
      getter_forwards_returnElements Q C ε StoreClient.get_trajectorys
        "trajectory" ∧
      getter_forwards_returnElements Q C ε StoreClient.get_wellbores
        "wellbore" ∧
      getter_forwards_returnElements Q C ε StoreClient.get_tubulars
        "tubular" ∧
      getter_forwards_returnElements Q C ε StoreClient.get_fluidsReports
        "fluidsReport" ∧
      getter_forwards_returnElements Q C ε StoreClient.get_drillReports
        "drillReport" ∧
      getter_forwards_returnElements Q C ε StoreClient.get_wbGeometrys
        "wbGeometry" ∧
      getter_forwards_returnElements Q C ε
        StoreClient.get_formationMarkers "formationMarker" := by
  intro Q C ε
  refine ⟨?_, ?_, ?_, ?_, ?_, ?_, ?_, ?_, ?_, ?_⟩ <;>
    (intro self w q s; exact ⟨rfl, rfl⟩)

/-- C9 witness: an unrecognized string is forwarded unchanged by the
concrete `get_mudLogs` call. -/
theorem C9_no_returnElements_validation_witness :
    (demoClient.get_mudLogs demoBinding 0 "bogus-value").fst.map
      ProcCall.OptionsIn = ["returnElements=" ++ "bogus-value"] ∧
    (demoClient.get_mudLogs demoBinding 0 "bogus-value").snd =
      _parse_reply demoBinding.CreateFromDocument
        (serviceReply demoClient
          (expectedCall demoBinding "mudLog" 0 "bogus-value")) :=
  (C9_no_returnElements_validation Nat String String).2.2.1 demoClient
    demoBinding 0 "bogus-value"

/-- C10: `RequestsTransport.send` raises the HTTP status error on every
4xx or 5xx response before any transport `Reply` is built, and on every
other response returns the `Reply` made of exactly the response's
status code, headers and content. -/
theorem C10_raise_for_status :
    ∀ (t : RequestsTransport) (post : PostArgs → HttpResponse)
      (request : SudsRequest),
      (400 ≤ (post (t.postArgs request)).status_code ∧
         (post (t.postArgs request)).status_code < 600 →
       (t.send post request).snd = Except.error
         { status_code := (post (t.postArgs request)).status_code }) ∧
      (¬(400 ≤ (post (t.postArgs request)).status_code ∧
          (post (t.postArgs request)).status_code < 600) →
       (t.send post request).snd = Except.ok
         { code := (post (t.postArgs request)).status_code
           headers := (post (t.postArgs request)).headers
           message := (post (t.postArgs request)).content }) := by
  intro t post request
  constructor
  · intro h
    simp [RequestsTransport.send, raise_for_status, h]
  · intro h
    simp [RequestsTransport.send, raise_for_status, h]

/-- C10 witness: the 404 response raises the status error, and the 200
response yields the transport reply with the response's fields. -/
theorem C10_raise_for_status_witness :
    ((400 ≤ (demoPost404 (demoTransport.postArgs
          demoRequest)).status_code ∧
      (demoPost404 (demoTransport.postArgs
          demoRequest)).status_code < 600) ∧
     (demoTransport.send demoPost404 demoRequest).snd = Except.error
       { status_code := (demoPost404 (demoTransport.postArgs
           demoRequest)).status_code }) ∧
    (¬(400 ≤ (demoPost (demoTransport.postArgs
          demoRequest)).status_code ∧
       (demoPost (demoTransport.postArgs
          demoRequest)).status_code < 600) ∧
     (demoTransport.send demoPost demoRequest).snd = Except.ok
       { code := (demoPost (demoTransport.postArgs
           demoRequest)).status_code
         headers := (demoPost (demoTransport.postArgs
           demoRequest)).headers
         message := (demoPost (demoTransport.postArgs
           demoRequest)).content }) :=
  ⟨⟨by decide,
    (C10_raise_for_status demoTransport demoPost404 demoRequest).1
      (by decide)⟩,
   ⟨by decide,
    (C10_raise_for_status demoTransport demoPost demoRequest).2
      (by decide)⟩⟩

end Komle
